import Mathlib

/-!
Verification of the ContextLayer synchronization pipeline (server.js and the
SQL schema) against its natural-language specification.

Modelling conventions:
* JavaScript strings are Lean `String`s; `undefined`/`null` option values are
  `Option String` with JS truthiness made explicit (`""`, `undefined`, `null`
  are falsy).
* External calls (Slack API, ClickUp API, the result-callback POSTs) are
  modelled by their outcomes, supplied as inputs in an `Env` record: an
  `Except` value is the outcome the `await`ed call would have produced
  (`.error` = the promise rejected / `axios` threw).
* `crypto.createHmac('sha256', secret).update(m).digest('hex')` is an external
  library primitive; it is modelled as an abstract parameter
  `hmacHex : String → String → String` (secret → message → hex digest).
* `DatabaseService` lives in `db.js`, which is not part of the sources given;
  its operations are modelled from the spec (each such definition is marked
  `Modelled from the spec:`).  The SQL schema (UNIQUE constraint, column
  defaults) is part of the sources and is reflected in the table model.
-/

/-- JS truthiness of a string value: the empty string is falsy. -/
def jsTruthyS (s : String) : Bool := s != ""

/-- JS truthiness of a possibly-absent string (`undefined`/`null` are falsy). -/
def jsTruthyOpt (o : Option String) : Bool :=
  match o with
  | none => false
  | some s => jsTruthyS s

/-- JS `a || b` where `a` is a possibly-absent string and `b` a string. -/
def jsOrS (a : Option String) (b : String) : String :=
  match a with
  | none => b
  | some s => if s = "" then b else s

/-- JS `a || b` on two possibly-absent strings (result is `b` as given when
`a` is falsy, mirroring that `||` returns its second operand unchanged). -/
def jsOrOpt (a b : Option String) : Option String :=
  match a with
  | none => b
  | some s => if s = "" then b else some s

/-- Numeric coercion of a timestamp header string, as used by
`Date.now() / 1000 - timestamp`.  Faithful to JS `ToNumber` on the canonical
non-negative decimal-integer strings Slack sends; any other string is treated
as NaN (`none`), and NaN makes every comparison false, exactly as in JS. -/
def jsToNumber (s : String) : Option ℚ :=
  if (s != "") && s.data.all Char.isDigit then
    some (((s.data.foldl (fun a c => a * 10 + (c.toNat - 48)) 0 : ℕ) : ℚ))
  else none

/-- Node `crypto.timingSafeEqual(Buffer.from(a), Buffer.from(b))`:
throws (here `.error ()`) when the UTF-8 byte lengths differ, otherwise
compares the byte contents in constant time (UTF-8 encoding is injective, so
byte equality of the buffers is string equality). -/
def timingSafeEqual (a b : String) : Except Unit Bool :=
  if a.utf8ByteSize ≠ b.utf8ByteSize then Except.error ()
  else Except.ok (a == b)

/-- Outcome of the `verifySlackRequest` middleware (server.js lines 26-57 and
the catch continuation): every constructor except `next` is a 4xx JSON
response and the guarded handler is not reached. -/
inductive VerifyResult where
  | missingHeaders   -- 400 Missing Slack signature headers
  | staleTimestamp   -- 400 Request timestamp too old
  | invalidSignature -- 400 Invalid request signature
  | caughtError      -- 400 Invalid request (catch branch)
  | next             -- next(): request proceeds to the handler
  deriving DecidableEq

/-- The replay-protection check `Math.abs(Date.now() / 1000 - timestamp) > 300`
(`nowMs` is `Date.now()` in milliseconds; `none` is NaN and never stale). -/
def tsStale (nowMs : ℚ) (t : Option ℚ) : Bool :=
  match t with
  | none => false
  | some x => decide (|nowMs / 1000 - x| > 300)

/-- The `verifySlackRequest` middleware, translated statement by statement
from server.js.  `signature`/`timestamp` are the two headers, `rawBody` is
`req.rawBody` as left by the capture middleware, `parsedBodyJson` is
`JSON.stringify(req.body)`. Note line 41: `req.rawBody || JSON.stringify(req.body)`. -/
def verifySlackRequest (hmacHex : String → String → String) (secret : String)
    (nowMs : ℚ) (signature timestamp rawBody : Option String)
    (parsedBodyJson : String) : VerifyResult :=
  if !(jsTruthyOpt signature) || !(jsTruthyOpt timestamp) then
    VerifyResult.missingHeaders
  else if tsStale nowMs (jsToNumber (timestamp.getD "")) then
    VerifyResult.staleTimestamp
  else
    let body := jsOrS rawBody parsedBodyJson
    let sigBasestring := "v0:" ++ timestamp.getD "" ++ ":" ++ body
    let mySignature := "v0=" ++ hmacHex secret sigBasestring
    match timingSafeEqual mySignature (signature.getD "") with
    | Except.error _ => VerifyResult.caughtError
    | Except.ok true => VerifyResult.next
    | Except.ok false => VerifyResult.invalidSignature

/-- Unfolding of the staleness check on a numeric timestamp. -/
theorem tsStale_some (nowMs x : ℚ) :
    tsStale nowMs (some x) = true ↔ |nowMs / 1000 - x| > 300 := by
  simp [tsStale]

/-- Unfolding of the staleness check: false means the timestamp is fresh. -/
theorem tsStale_some_false (nowMs x : ℚ) :
    tsStale nowMs (some x) = false ↔ ¬ |nowMs / 1000 - x| > 300 := by
  simp [tsStale]

/-! ### Slack API operations (server.js `class SlackService`) -/

/-- Shape of an `axios` response body from the Slack Web API: the `ok` flag
and the payload field the service reads (`user`, `channel` or `messages`). -/
structure SlackApiResp (α : Type) where
  ok : Bool
  payload : α
  deriving DecidableEq

/-- A Slack user object as read by the code (`display_name` / `real_name`). -/
structure SlackUser where
  display_name : Option String
  real_name : Option String
  deriving DecidableEq

/-- A Slack channel object as read by the code (`name`). -/
structure SlackChannel where
  name : Option String
  deriving DecidableEq

/-- One message of a thread as returned by `conversations.replies`. -/
structure ThreadMsg where
  ts : String
  user : String
  user_name : Option String
  text : String
  deriving DecidableEq

/-- SlackService.getUserInfo (server.js lines 232-249): `null` when the call
threw or the response has `ok: false`; never throws. -/
def SlackService.getUserInfo :
    Except String (SlackApiResp SlackUser) → Option SlackUser
  | Except.error _ => none
  | Except.ok r => if r.ok then some r.payload else none

/-- SlackService.getChannelInfo (server.js lines 251-268): `null` when the
call threw or the response has `ok: false`; never throws. -/
def SlackService.getChannelInfo :
    Except String (SlackApiResp SlackChannel) → Option SlackChannel
  | Except.error _ => none
  | Except.ok r => if r.ok then some r.payload else none

/-- SlackService.getThreadMessages (server.js lines 210-230): `[]` when the
call threw or `ok` is false, else `response.data.messages || []`;
never throws. -/
def SlackService.getThreadMessages :
    Except String (SlackApiResp (Option (List ThreadMsg))) → List ThreadMsg
  | Except.error _ => []
  | Except.ok r => if r.ok then r.payload.getD [] else []

/-! ### ClickUp API operations (server.js `class ClickUpService`) -/

/-- A created ClickUp task as read from the response (`id`, `url`, `name`). -/
structure ClickUpTask where
  id : String
  url : String
  name : String
  deriving DecidableEq

/-- What the `catch` in `createTask` can read off an axios error:
`error.response?.data?.err`, `error.response?.data?.error`, `error.message`. -/
structure AxiosErrInfo where
  respErr : Option String
  respError : Option String
  message : String
  deriving DecidableEq

/-- The error text `error.response?.data?.err || error.response?.data?.error
|| error.message` (server.js line 288). -/
def clickupErrMsg (e : AxiosErrInfo) : String :=
  jsOrS e.respErr (jsOrS e.respError e.message)

/-- ClickUpService.createTask (server.js lines 273-291): passes a successful
response through, wraps any error as `ClickUp API error: ...` and rethrows. -/
def ClickUpService.createTask :
    Except AxiosErrInfo ClickUpTask → Except String ClickUpTask
  | Except.ok t => Except.ok t
  | Except.error e => Except.error ("ClickUp API error: " ++ clickupErrMsg e)

/-! ### Task description formatter (server.js lines 293-318) -/

/-- The original Slack message as destructured by the code. -/
structure SlackMessage where
  ts : String
  user : String
  text : String
  thread_ts : Option String
  permalink : Option String
  deriving DecidableEq

/-- Author attribution `user?.display_name || user?.real_name || 'Unknown'`. -/
def authorLabel (user : Option SlackUser) : String :=
  jsOrS (jsOrOpt (user.bind fun u => u.display_name)
                 (user.bind fun u => u.real_name)) "Unknown"

/-- Channel attribution `channel?.name || 'Unknown'`. -/
def channelLabel (channel : Option SlackChannel) : String :=
  jsOrS (channel.bind fun c => c.name) "Unknown"

/-- Reply attribution `msg.user_name || msg.user`. -/
def replyAuthor (m : ThreadMsg) : String := jsOrS m.user_name m.user

/-- One iteration of the `threadMessages.slice(1).forEach((msg, i) => ...)`
loop: the text appended for the reply at zero-based index `i`. -/
def replyBlock (i : ℕ) (m : ThreadMsg) : String :=
  "**Reply " ++ toString (i + 1) ++ "** by @" ++ replyAuthor m ++ ":\n"
    ++ m.text ++ "\n\n"

/-- Header of the thread-context section for `n` fetched thread messages
(the reported reply count excludes the root: `threadMessages.length - 1`). -/
def threadHeader (n : ℕ) : String :=
  "**🧵 Thread Context (" ++ toString (n - 1) ++ " replies):**\n\n"

/-- Concatenation of a list of strings (used to state what the forEach loop
appends as a whole). -/
def strJoin : List String → String
  | [] => ""
  | s :: rest => s ++ strJoin rest

/-- The thread-context section as a standalone string: empty unless more than
one thread message is present (`if (threadMessages.length > 1)`). -/
def threadSection (threadMessages : List ThreadMsg) : String :=
  if threadMessages.length > 1 then
    threadHeader threadMessages.length
      ++ strJoin ((threadMessages.drop 1).enum.map fun pr => replyBlock pr.1 pr.2)
  else ""

/-- The fixed provenance footer (server.js line 316). -/
def footerText : String :=
  "---\n*This task was created from Slack via ContextLayer*"

/-- ClickUpService.formatSlackContextForClickUp, translated statement by
statement.  `loc` models the ambient-locale date rendering
`new Date(parseFloat(ts) * 1000).toLocaleString()`, an environment-dependent
library primitive, as a fixed parameter from `ts` to its rendering. -/
def ClickUpService.formatSlackContextForClickUp (loc : String → String)
    (message : SlackMessage) (user : Option SlackUser)
    (channel : Option SlackChannel) (threadMessages : List ThreadMsg) : String :=
  let d := "**📝 Original Slack Message**\n\n"
  let d := d ++ "**From:** @" ++ authorLabel user ++ "\n"
  let d := d ++ "**Channel:** #" ++ channelLabel channel ++ "\n"
  let d := d ++ "**When:** " ++ loc message.ts ++ "\n"
  let d := if jsTruthyOpt message.permalink then
      d ++ "**Link:** " ++ message.permalink.getD "" ++ "\n\n"
    else d
  let d := d ++ "**Message:**\n" ++ message.text ++ "\n\n"
  let d := if threadMessages.length > 1 then
      (threadMessages.drop 1).enum.foldl
        (fun acc pr => acc ++ replyBlock pr.1 pr.2)
        (d ++ threadHeader threadMessages.length)
    else d
  d ++ footerText

/-- The part of the description that precedes the thread section: header,
author, channel, timestamp, optional permalink, message body. -/
def mainPart (loc : String → String) (message : SlackMessage)
    (user : Option SlackUser) (channel : Option SlackChannel) : String :=
  "**📝 Original Slack Message**\n\n"
    ++ "**From:** @" ++ authorLabel user ++ "\n"
    ++ "**Channel:** #" ++ channelLabel channel ++ "\n"
    ++ "**When:** " ++ loc message.ts ++ "\n"
    ++ (if jsTruthyOpt message.permalink then
          "**Link:** " ++ message.permalink.getD "" ++ "\n\n"
        else "")
    ++ "**Message:**\n" ++ message.text ++ "\n\n"

/-- Appending element-wise via foldl is appending the join of the blocks. -/
theorem foldl_append_strJoin {α : Type} (f : α → String) :
    ∀ (l : List α) (d : String),
      l.foldl (fun acc x => acc ++ f x) d = d ++ strJoin (l.map f)
  | [], d => by simp [strJoin, String.append_empty]
  | x :: xs, d => by
      rw [List.foldl_cons, foldl_append_strJoin f xs (d ++ f x)]
      simp [strJoin, String.append_assoc]

/-- Decomposition of the formatter into main part, thread section, footer. -/
theorem formatSlackContext_decomp (loc : String → String)
    (message : SlackMessage) (user : Option SlackUser)
    (channel : Option SlackChannel) (threadMessages : List ThreadMsg) :
    ClickUpService.formatSlackContextForClickUp loc message user channel threadMessages
      = mainPart loc message user channel ++ threadSection threadMessages
          ++ footerText := by
  unfold ClickUpService.formatSlackContextForClickUp mainPart threadSection
  by_cases hp : jsTruthyOpt message.permalink
  · by_cases ht : threadMessages.length > 1
    · simp only [hp, ht, if_true, if_pos,
        foldl_append_strJoin (fun pr : ℕ × ThreadMsg => replyBlock pr.1 pr.2)]
      simp [String.append_assoc, String.append_empty]
      try rfl
    · simp only [hp, ht, if_true, if_neg, if_false]
      simp [String.append_assoc, String.append_empty]
      try rfl
  · by_cases ht : threadMessages.length > 1
    · simp only [hp, ht, if_true, if_pos, if_neg, if_false,
        foldl_append_strJoin (fun pr : ℕ × ThreadMsg => replyBlock pr.1 pr.2)]
      simp [String.append_assoc, String.append_empty]
      try rfl
    · simp only [hp, ht, if_neg, if_false]
      simp [String.append_assoc, String.append_empty]
      try rfl

/-! ### Database model

`db.js` (the `DatabaseService` implementation) is not among the given
sources; only the SQL schema and the call sites in server.js are.  The table
shape and its defaults come from the schema (`part_000`); the operation
semantics are modelled from spec §4.2. -/

/-- Mapping lifecycle states, from the schema CHECK constraint on
`sync_status`. -/
inductive SyncStatus where
  | pending
  | processing
  | completed
  | failed
  deriving DecidableEq

/-- A row of `slack_clickup_mappings` (schema lines 19-53).  Columns the
pipeline never touches (timestamps, generated id) are omitted; per the
single-writer assumption of §5 a run's row is tracked as a value. -/
structure MappingRow where
  slack_message_id : String
  slack_channel_id : String
  slack_user_id : String
  slack_workspace_id : String
  slack_thread_ts : Option String
  slack_message_text : String
  slack_message_permalink : Option String
  slack_channel_name : Option String
  slack_user_name : Option String
  clickup_task_id : Option String
  clickup_list_id : String
  clickup_task_url : Option String
  clickup_task_name : Option String
  sync_status : SyncStatus
  error_message : Option String
  retry_count : ℕ
  workspace_id : String
  deriving DecidableEq

/-- The insert payload passed to `DatabaseService.createMapping`
(server.js lines 362-372). -/
structure MappingDraft where
  slack_message_id : String
  slack_channel_id : String
  slack_user_id : String
  slack_workspace_id : String
  slack_thread_ts : Option String
  slack_message_text : String
  slack_message_permalink : Option String
  clickup_list_id : String
  workspace_id : String
  deriving DecidableEq

/-- Persistence-layer failures surfaced by `createMapping`. -/
inductive DbError where
  | duplicateMapping
  deriving DecidableEq

/-- The row a successful insert produces: draft fields plus the schema
defaults `sync_status 'pending'` and `retry_count 0`. -/
def newMappingRow (d : MappingDraft) : MappingRow :=
  { slack_message_id := d.slack_message_id
    slack_channel_id := d.slack_channel_id
    slack_user_id := d.slack_user_id
    slack_workspace_id := d.slack_workspace_id
    slack_thread_ts := d.slack_thread_ts
    slack_message_text := d.slack_message_text
    slack_message_permalink := d.slack_message_permalink
    slack_channel_name := none
    slack_user_name := none
    clickup_task_id := none
    clickup_list_id := d.clickup_list_id
    clickup_task_url := none
    clickup_task_name := none
    sync_status := SyncStatus.pending
    error_message := none
    retry_count := 0
    workspace_id := d.workspace_id }

/-- True when no row of the table carries the given
(slack_message_id, slack_workspace_id) pair. -/
def pairFree (T : List MappingRow) (mid wid : String) : Bool :=
  !(T.any fun r => r.slack_message_id == mid && r.slack_workspace_id == wid)

/-- Number of rows of the table carrying the given pair. -/
def pairCount (T : List MappingRow) (mid wid : String) : ℕ :=
  (T.filter fun r => r.slack_message_id == mid && r.slack_workspace_id == wid).length

/-- Modelled from the spec: `DatabaseService.createMapping` (db.js, absent
from the sources) — §4.2 `create(draft)` inserts a new Mapping in `pending`
state and fails with `DuplicateMapping` when the
(source message id, workspace id) pair already exists, per the schema
constraint `UNIQUE(slack_message_id, slack_workspace_id)`. -/
def DatabaseService.createMapping (T : List MappingRow) (d : MappingDraft) :
    Except DbError (MappingRow × List MappingRow) :=
  if T.any fun r => r.slack_message_id == d.slack_message_id
      && r.slack_workspace_id == d.slack_workspace_id then
    Except.error DbError.duplicateMapping
  else
    Except.ok (newMappingRow d, newMappingRow d :: T)

/-- Optional result fields accompanying a status update (the third argument
of `updateSyncStatus` at the server.js call sites). -/
structure StatusExtra where
  clickup_task_id : Option String := none
  clickup_task_url : Option String := none
  clickup_task_name : Option String := none
  error_message : Option String := none
  deriving DecidableEq

/-- Modelled from the spec: `DatabaseService.updateSyncStatus` (db.js, absent
from the sources) — §4.2 `transition(id, newState, fields)` updates the
status and any supplied result fields; the failure transition is §4.2
`recordFailure`, which also increments `retry_count`. -/
def DatabaseService.updateSyncStatus (r : MappingRow) (s : SyncStatus)
    (extra : StatusExtra) : MappingRow :=
  let r1 : MappingRow := { r with
    sync_status := s
    clickup_task_id := extra.clickup_task_id.orElse fun _ => r.clickup_task_id
    clickup_task_url := extra.clickup_task_url.orElse fun _ => r.clickup_task_url
    clickup_task_name := extra.clickup_task_name.orElse fun _ => r.clickup_task_name
    error_message := extra.error_message.orElse fun _ => r.error_message }
  if s = SyncStatus.failed then { r1 with retry_count := r1.retry_count + 1 }
  else r1

/-- Modelled from the spec: `DatabaseService.updateMapping` (db.js, absent
from the sources) — §4.6 step 5, persist the enriched display names onto the
mapping. -/
def DatabaseService.updateMapping (r : MappingRow)
    (channelName userName : Option String) : MappingRow :=
  { r with slack_channel_name := channelName, slack_user_name := userName }

/-- A row of `slack_thread_context` (schema lines 61-71). -/
structure ThreadRow where
  thread_message_id : String
  thread_user_id : String
  thread_user_name : Option String
  thread_message_text : String
  thread_timestamp : String
  message_order : ℕ
  deriving DecidableEq

/-- Modelled from the spec: `DatabaseService.saveThreadContext` (db.js,
absent from the sources) — §4.2 `attachThreadContext(id, entries)`
bulk-inserts one row per thread message with its zero-based order index. -/
def DatabaseService.saveThreadContext (msgs : List ThreadMsg) : List ThreadRow :=
  msgs.enum.map fun pr =>
    { thread_message_id := pr.2.ts
      thread_user_id := pr.2.user
      thread_user_name := pr.2.user_name
      thread_message_text := pr.2.text
      thread_timestamp := pr.2.ts
      message_order := pr.1 }

/-! ### The orchestrator (server.js `processSlackMessage`, lines 347-481) -/

/-- A workspace configuration row, as read by the orchestrator. -/
structure WorkspaceRow where
  id : String
  slack_workspace_name : String
  slack_bot_token : String
  clickup_api_token : String
  default_clickup_list_id : String
  deriving DecidableEq

/-- The fields of the Slack interaction payload the orchestrator reads. -/
structure Payload where
  message : SlackMessage
  channelId : String
  teamId : String
  deriving DecidableEq

/-- Outcomes of every external interaction one orchestrator run performs,
supplied as inputs: the pre-existing mapping table, the workspace lookup,
the three Slack fetches, the ClickUp call, and the delivery outcomes of the
two possible callback POSTs. -/
structure Env where
  table : List MappingRow
  workspace : Option WorkspaceRow
  userResp : Except String (SlackApiResp SlackUser)
  channelResp : Except String (SlackApiResp SlackChannel)
  threadResp : Except String (SlackApiResp (Option (List ThreadMsg)))
  clickupResp : Except AxiosErrInfo ClickUpTask
  successPost : Except String Unit
  failurePost : Except String Unit

/-- Whether a callback POST carried the success or the failure summary. -/
inductive PostKind where
  | success
  | failure
  deriving DecidableEq

/-- One attempted POST to the caller-supplied callback URL. -/
structure PostRecord where
  kind : PostKind
  text : String
  delivered : Bool
  deriving DecidableEq

/-- The ClickUp task payload built at server.js lines 410-417. -/
structure TaskData where
  name : String
  description : String
  status : String
  priority : ℕ
  tags : List String
  deriving DecidableEq

/-- JS `text.substring(0, n)` (by characters). -/
def jsSubstring (s : String) (n : ℕ) : String := String.mk (s.data.take n)

/-- Task payload construction: bounded title prefix plus ellipsis when
truncated, fixed status/priority/tags. -/
def buildTaskData (channelInfo : Option SlackChannel) (message : SlackMessage)
    (description : String) : TaskData :=
  { name := "Task from #" ++ jsOrS (channelInfo.bind fun c => c.name) "slack"
      ++ ": " ++ jsSubstring message.text 100
      ++ (if message.text.length > 100 then "..." else "")
    description := description
    status := "to do"
    priority := 3
    tags := ["from-slack", "contextlayer"] }

/-- Everything one orchestrator run leaves behind: the final persisted
mapping row (none when no row was ever created), the persisted thread-context
rows, the ClickUp task payload if the downstream call was attempted, and the
callback POSTs attempted in order. -/
structure RunResult where
  mapping : Option MappingRow
  threadRows : List ThreadRow
  taskRequest : Option TaskData
  posts : List PostRecord
  deriving DecidableEq

/-- The mapping draft built from the payload and workspace
(server.js lines 362-372); `message.thread_ts || null` and
`message.permalink || null` send the empty string to null. -/
def mappingDraft (ws : WorkspaceRow) (payload : Payload) : MappingDraft :=
  { slack_message_id := payload.message.ts
    slack_channel_id := payload.channelId
    slack_user_id := payload.message.user
    slack_workspace_id := payload.teamId
    slack_thread_ts := jsOrOpt payload.message.thread_ts none
    slack_message_text := payload.message.text
    slack_message_permalink := jsOrOpt payload.message.permalink none
    clickup_list_id := ws.default_clickup_list_id
    workspace_id := ws.id }

/-- The catch block of `processSlackMessage` (server.js lines 459-480):
record the failure on the mapping when one exists, then best-effort POST the
failure summary to the callback URL (its own failure is swallowed by the
inner try/catch and only affects the delivery flag). -/
def handleFailure (env : Env) (responseUrl : Option String)
    (mapping : Option MappingRow) (threadRows : List ThreadRow)
    (taskRequest : Option TaskData) (postsSoFar : List PostRecord)
    (errMsg : String) : RunResult :=
  let mapping := mapping.map fun r =>
    DatabaseService.updateSyncStatus r SyncStatus.failed
      { error_message := some errMsg }
  if jsTruthyOpt responseUrl then
    let delivered := match env.failurePost with
      | Except.ok _ => true
      | Except.error _ => false
    { mapping := mapping
      threadRows := threadRows
      taskRequest := taskRequest
      posts := postsSoFar ++
        [{ kind := PostKind.failure
           text := "❌ Failed to create task: " ++ errMsg
           delivered := delivered }] }
  else
    { mapping := mapping
      threadRows := threadRows
      taskRequest := taskRequest
      posts := postsSoFar }

/-- The thread-context fetch of server.js lines 386-394: only performed when
`message.thread_ts` is truthy, otherwise the empty list. -/
def threadFetched (env : Env) (message : SlackMessage) : List ThreadMsg :=
  if jsTruthyOpt message.thread_ts then
    SlackService.getThreadMessages env.threadResp
  else []

/-- The orchestrator `processSlackMessage`, translated statement by
statement from server.js lines 347-481.  The try block runs until the first
rejected `await` (workspace missing, duplicate insert, ClickUp error, or a
failed success-callback POST), which transfers control to `handleFailure`. -/
def processSlackMessage (env : Env) (loc : String → String) (payload : Payload)
    (responseUrl : Option String) : RunResult :=
  match env.workspace with
  | none =>
      handleFailure env responseUrl none [] none []
        ("Workspace not configured for " ++ payload.teamId)
  | some ws =>
    match DatabaseService.createMapping env.table (mappingDraft ws payload) with
    | Except.error _ =>
        handleFailure env responseUrl none [] none []
          "duplicate key value violates unique constraint"
    | Except.ok (row0, _) =>
      let row1 := DatabaseService.updateSyncStatus row0 SyncStatus.processing {}
      let messageUser := SlackService.getUserInfo env.userResp
      let channelInfo := SlackService.getChannelInfo env.channelResp
      let threadMessages := threadFetched env payload.message
      let row2 := DatabaseService.updateMapping row1
        (channelInfo.bind fun c => c.name)
        (jsOrOpt (messageUser.bind fun u => u.display_name)
                 (messageUser.bind fun u => u.real_name))
      let taskDescription := ClickUpService.formatSlackContextForClickUp loc
        payload.message messageUser channelInfo threadMessages
      let taskData := buildTaskData channelInfo payload.message taskDescription
      match ClickUpService.createTask env.clickupResp with
      | Except.error emsg =>
          handleFailure env responseUrl (some row2) [] (some taskData) [] emsg
      | Except.ok clickupTask =>
        let row3 := DatabaseService.updateSyncStatus row2 SyncStatus.completed
          { clickup_task_id := some clickupTask.id
            clickup_task_url := some clickupTask.url
            clickup_task_name := some clickupTask.name }
        let threadRows := if threadMessages.length > 0 then
            DatabaseService.saveThreadContext threadMessages
          else []
        match env.successPost with
        | Except.error pmsg =>
            handleFailure env responseUrl (some row3) threadRows (some taskData)
              [{ kind := PostKind.success
                 text := "✅ Task created successfully!"
                 delivered := false }] pmsg
        | Except.ok _ =>
            { mapping := some row3
              threadRows := threadRows
              taskRequest := some taskData
              posts := [{ kind := PostKind.success
                          text := "✅ Task created successfully!"
                          delivered := true }] }

/-! ### Helper lemmas -/

/-- A status update always lands on the requested status. -/
theorem updateSyncStatus_status (r : MappingRow) (s : SyncStatus)
    (extra : StatusExtra) :
    (DatabaseService.updateSyncStatus r s extra).sync_status = s := by
  unfold DatabaseService.updateSyncStatus
  by_cases h : s = SyncStatus.failed <;> simp [h]

/-! ### Concrete sample inputs shared by the witnesses -/

/-- Sample workspace configuration. -/
def wsA : WorkspaceRow :=
  { id := "w1"
    slack_workspace_name := "Acme"
    slack_bot_token := "xoxb-1"
    clickup_api_token := "cu-1"
    default_clickup_list_id := "L1" }

/-- Sample unthreaded Slack message. -/
def msgA : SlackMessage :=
  { ts := "111.222", user := "U1", text := "hello", thread_ts := none,
    permalink := none }

/-- Sample payload carrying `msgA`. -/
def payloadA : Payload := { message := msgA, channelId := "C1", teamId := "T1" }

/-- Sample created ClickUp task. -/
def taskA : ClickUpTask := { id := "t1", url := "https://cu/t1", name := "n1" }

/-- Sample locale rendering of timestamps. -/
def locA : String → String := fun _ => "1/1/2020, 1:00:00 AM"

/-- Sample callback URL (truthy). -/
def urlA : Option String := some "https://hooks.slack/cb"

/-- Environment of a fully successful run whose enrichment fetches all fail
upstream (the pipeline must still succeed). -/
def envOk : Env :=
  { table := []
    workspace := some wsA
    userResp := Except.error "ECONNRESET"
    channelResp := Except.error "ECONNRESET"
    threadResp := Except.error "ECONNRESET"
    clickupResp := Except.ok taskA
    successPost := Except.ok ()
    failurePost := Except.ok () }

/-- A dummy row used only as the default of `Option.getD`. -/
def dummyRow : MappingRow := newMappingRow (mappingDraft wsA payloadA)

/-- The final row of the successful sample run. -/
def rowOk : MappingRow :=
  (processSlackMessage envOk locA payloadA urlA).mapping.getD dummyRow


/-- The mapping left behind by the catch block: the input mapping, marked
failed, when one exists. -/
theorem handleFailure_map (env : Env) (u : Option String)
    (m : Option MappingRow) (tr : List ThreadRow) (tq : Option TaskData)
    (ps : List PostRecord) (e : String) :
    (handleFailure env u m tr tq ps e).mapping
      = m.map (fun r => DatabaseService.updateSyncStatus r SyncStatus.failed
          { error_message := some e }) := by
  unfold handleFailure
  by_cases hu : jsTruthyOpt u <;> simp [hu]

/-- C2: for every orchestrator run in which a mapping row was created, when
the asynchronous orchestrator task completes the mapping's sync_status is
'completed' or 'failed' and never 'processing', whatever the outcomes of
enrichment, description formatting and downstream task creation were. -/
theorem C2_terminal_status (env : Env) (loc : String → String)
    (payload : Payload) (responseUrl : Option String) (row : MappingRow)
    (h : (processSlackMessage env loc payload responseUrl).mapping = some row) :
    row.sync_status = SyncStatus.completed
      ∨ row.sync_status = SyncStatus.failed := by
  rcases hw : env.workspace with _ | ws
  · simp only [processSlackMessage, hw, handleFailure_map, Option.map_none'] at h
    exact absurd h (by simp)
  · rcases hc : DatabaseService.createMapping env.table (mappingDraft ws payload)
      with e | rt
    · simp only [processSlackMessage, hw, hc, handleFailure_map,
        Option.map_none'] at h
      exact absurd h (by simp)
    · rcases hk : ClickUpService.createTask env.clickupResp with e | t
      · simp only [processSlackMessage, hw, hc, hk, handleFailure_map,
          Option.map_some', Option.some.injEq] at h
        exact Or.inr (h ▸ updateSyncStatus_status _ _ _)
      · rcases hs : env.successPost with e | u
        · simp only [processSlackMessage, hw, hc, hk, hs, handleFailure_map,
            Option.map_some', Option.some.injEq] at h
          exact Or.inr (h ▸ updateSyncStatus_status _ _ _)
        · simp only [processSlackMessage, hw, hc, hk, hs,
            Option.some.injEq] at h
          exact Or.inl (h ▸ updateSyncStatus_status _ _ _)

/-- C2 witness: the successful sample run created a mapping and it ends in a
terminal state. -/
theorem C2_witness :
    rowOk.sync_status = SyncStatus.completed
      ∨ rowOk.sync_status = SyncStatus.failed :=
  C2_terminal_status envOk locA payloadA urlA rowOk (by rfl)

/-- C3: at most one Mapping row per (source message id, workspace id): on a
table free of the pair, the first create persists exactly one row with the
pair, and a second create for the same pair fails with DuplicateMapping
instead of inserting (the table it would have produced is unchanged). -/
theorem C3_unique_mapping (T : List MappingRow) (d d2 : MappingDraft)
    (hfree : pairFree T d.slack_message_id d.slack_workspace_id = true)
    (hmid : d2.slack_message_id = d.slack_message_id)
    (hwid : d2.slack_workspace_id = d.slack_workspace_id) :
    DatabaseService.createMapping T d
        = Except.ok (newMappingRow d, newMappingRow d :: T)
      ∧ pairCount (newMappingRow d :: T) d.slack_message_id d.slack_workspace_id
        = 1
      ∧ DatabaseService.createMapping (newMappingRow d :: T) d2
        = Except.error DbError.duplicateMapping := by
  have hno : (T.any fun r => r.slack_message_id == d.slack_message_id
      && r.slack_workspace_id == d.slack_workspace_id) = false := by
    simpa [pairFree] using hfree
  refine ⟨?_, ?_, ?_⟩
  · unfold DatabaseService.createMapping
    simp [hno]
  · have hcnt : pairCount T d.slack_message_id d.slack_workspace_id = 0 := by
      unfold pairCount
      rw [List.length_eq_zero, List.filter_eq_nil_iff]
      intro r hr
      have := List.any_eq_false.mp hno r hr
      simpa using this
    unfold pairCount at hcnt ⊢
    simp [List.filter_cons, newMappingRow, hcnt]
  · unfold DatabaseService.createMapping
    have : ((newMappingRow d :: T).any fun r =>
        r.slack_message_id == d2.slack_message_id
          && r.slack_workspace_id == d2.slack_workspace_id) = true := by
      simp [List.any_cons, newMappingRow, hmid, hwid]
    simp [this]

/-- C3 witness: concretely, from the empty table a first insert succeeds and
an identical second insert is rejected. -/
theorem C3_witness :
    DatabaseService.createMapping [] (mappingDraft wsA payloadA)
        = Except.ok (newMappingRow (mappingDraft wsA payloadA),
            [newMappingRow (mappingDraft wsA payloadA)])
      ∧ pairCount [newMappingRow (mappingDraft wsA payloadA)]
          (mappingDraft wsA payloadA).slack_message_id
          (mappingDraft wsA payloadA).slack_workspace_id = 1
      ∧ DatabaseService.createMapping [newMappingRow (mappingDraft wsA payloadA)]
          (mappingDraft wsA payloadA) = Except.error DbError.duplicateMapping :=
  C3_unique_mapping [] (mappingDraft wsA payloadA) (mappingDraft wsA payloadA)
    (by decide) (by decide) (by decide)

/-- Whether an `await`ed call resolved (did not throw). -/
def exceptIsOk {ε α : Type} : Except ε α → Bool
  | Except.ok _ => true
  | Except.error _ => false

/-- Environment of a run where the task is created but both callback POSTs
fail to deliver. -/
def envBad : Env :=
  { envOk with
    successPost := Except.error "ECONNRESET"
    failurePost := Except.error "ECONNRESET" }

/-- The final row of the sample run with failing callback POSTs. -/
def rowBad : MappingRow :=
  (processSlackMessage envBad locA payloadA urlA).mapping.getD dummyRow

/-- C4 counterexample: with the downstream task created successfully but the
callback unreachable, two result notifications are attempted (not exactly
one), none is delivered, and the mapping that the otherwise identical run
leaves as 'completed' is persisted as 'failed' — the failure of the POST
altered the mapping's persisted state. -/
theorem C4_counterexample :
    (processSlackMessage envBad locA payloadA urlA).posts.length = 2
      ∧ ((processSlackMessage envBad locA payloadA urlA).posts.filter
          fun q => q.delivered).length = 0
      ∧ envBad.clickupResp = Except.ok taskA
      ∧ (processSlackMessage envBad locA payloadA urlA).mapping = some rowBad
      ∧ rowBad.sync_status = SyncStatus.failed
      ∧ (processSlackMessage envOk locA payloadA urlA).mapping = some rowOk
      ∧ rowOk.sync_status = SyncStatus.completed :=
  ⟨by rfl, by rfl, by rfl, by rfl, by rfl, by rfl, by rfl⟩

/-- C4 (amended): with a truthy callback URL, between one and two result
notifications are attempted per run; the delivery outcome of the
failure-summary POST never influences the persisted mapping or thread rows;
and a second notification is attempted only when the success-summary POST
itself failed (that failure is escalated into the catch path). -/
theorem C4_callback_policy (env : Env) (loc : String → String)
    (payload : Payload) (responseUrl : Option String)
    (p : Except String Unit) (hu : jsTruthyOpt responseUrl = true) :
    (processSlackMessage { env with failurePost := p } loc payload responseUrl).mapping
        = (processSlackMessage env loc payload responseUrl).mapping
      ∧ (processSlackMessage { env with failurePost := p } loc payload responseUrl).threadRows
        = (processSlackMessage env loc payload responseUrl).threadRows
      ∧ 1 ≤ (processSlackMessage env loc payload responseUrl).posts.length
      ∧ (processSlackMessage env loc payload responseUrl).posts.length ≤ 2
      ∧ ((processSlackMessage env loc payload responseUrl).posts.length = 2 →
          exceptIsOk env.successPost = false) := by
  rcases hw : env.workspace with _ | ws
  · simp [processSlackMessage, handleFailure, hw, hu]
  · rcases hc : DatabaseService.createMapping env.table (mappingDraft ws payload)
      with e | rt
    · simp [processSlackMessage, handleFailure, hw, hc, hu]
    · rcases hk : ClickUpService.createTask env.clickupResp with e | t
      · simp [processSlackMessage, handleFailure, hw, hc, hk, hu]
      · rcases hs : env.successPost with e | u
        · simp [processSlackMessage, handleFailure, threadFetched, hw, hc, hk,
            hs, hu, exceptIsOk]
        · simp [processSlackMessage, handleFailure, threadFetched, hw, hc, hk,
            hs, hu]

/-- C4 witness: the amended policy at the successful sample run with a
failure-POST outcome forced to an error. -/
theorem C4_witness :
    (processSlackMessage { envOk with failurePost := Except.error "x" } locA
        payloadA urlA).mapping
        = (processSlackMessage envOk locA payloadA urlA).mapping
      ∧ (processSlackMessage { envOk with failurePost := Except.error "x" } locA
          payloadA urlA).threadRows
        = (processSlackMessage envOk locA payloadA urlA).threadRows
      ∧ 1 ≤ (processSlackMessage envOk locA payloadA urlA).posts.length
      ∧ (processSlackMessage envOk locA payloadA urlA).posts.length ≤ 2
      ∧ ((processSlackMessage envOk locA payloadA urlA).posts.length = 2 →
          exceptIsOk envOk.successPost = false) :=
  C4_callback_policy envOk locA payloadA urlA (Except.error "x") (by decide)

/-- The catch block does not touch the already-persisted thread rows. -/
theorem handleFailure_threadRows (env : Env) (u : Option String)
    (m : Option MappingRow) (tr : List ThreadRow) (tq : Option TaskData)
    (ps : List PostRecord) (e : String) :
    (handleFailure env u m tr tq ps e).threadRows = tr := by
  unfold handleFailure
  by_cases hu : jsTruthyOpt u <;> simp [hu]

/-- The catch block does not touch the recorded task request. -/
theorem handleFailure_taskRequest (env : Env) (u : Option String)
    (m : Option MappingRow) (tr : List ThreadRow) (tq : Option TaskData)
    (ps : List PostRecord) (e : String) :
    (handleFailure env u m tr tq ps e).taskRequest = tq := by
  unfold handleFailure
  by_cases hu : jsTruthyOpt u <;> simp [hu]

/-- A successful `createTask` means the underlying call resolved. -/
theorem createTask_ok_iff (r : Except AxiosErrInfo ClickUpTask) :
    exceptIsOk (ClickUpService.createTask r) = exceptIsOk r := by
  cases r <;> simp [ClickUpService.createTask, exceptIsOk]

/-- C5: when the downstream task creation fails on the first attempt for a
mapping, the mapping ends 'failed' with the thrown ClickUp error message
stored verbatim in error_message, retry_count incremented to 1, and the one
callback POST of the run carries a failure message quoting that error. -/
theorem C5_downstream_failure (env : Env) (loc : String → String)
    (payload : Payload) (responseUrl : Option String) (ws : WorkspaceRow)
    (e : AxiosErrInfo)
    (hw : env.workspace = some ws)
    (hfree : pairFree env.table payload.message.ts payload.teamId = true)
    (hck : env.clickupResp = Except.error e)
    (hu : jsTruthyOpt responseUrl = true) :
    (processSlackMessage env loc payload responseUrl).mapping.map
        MappingRow.sync_status = some SyncStatus.failed
      ∧ (processSlackMessage env loc payload responseUrl).mapping.map
          MappingRow.error_message
        = some (some ("ClickUp API error: " ++ clickupErrMsg e))
      ∧ (processSlackMessage env loc payload responseUrl).mapping.map
          MappingRow.retry_count = some 1
      ∧ (processSlackMessage env loc payload responseUrl).posts.map
          PostRecord.text
        = ["❌ Failed to create task: "
            ++ ("ClickUp API error: " ++ clickupErrMsg e)] := by
  have hno : (env.table.any fun r =>
      r.slack_message_id == (mappingDraft ws payload).slack_message_id
        && r.slack_workspace_id == (mappingDraft ws payload).slack_workspace_id)
      = false := by
    simpa [pairFree, mappingDraft] using hfree
  simp [processSlackMessage, handleFailure, DatabaseService.createMapping,
    ClickUpService.createTask, DatabaseService.updateSyncStatus,
    DatabaseService.updateMapping, newMappingRow, hw, hno, hck, hu]

/-- Environment whose downstream ClickUp call is rejected. -/
def errA : AxiosErrInfo :=
  { respErr := none, respError := some "Team not authorized", message := "401" }

/-- Sample run whose ClickUp call fails. -/
def envFail : Env := { envOk with clickupResp := Except.error errA }

/-- C5 witness: the failing-downstream sample run ends failed with the
verbatim message, retry_count 1, and a failure callback POST. -/
theorem C5_witness :
    (processSlackMessage envFail locA payloadA urlA).mapping.map
        MappingRow.sync_status = some SyncStatus.failed
      ∧ (processSlackMessage envFail locA payloadA urlA).mapping.map
          MappingRow.error_message
        = some (some ("ClickUp API error: " ++ clickupErrMsg errA))
      ∧ (processSlackMessage envFail locA payloadA urlA).mapping.map
          MappingRow.retry_count = some 1
      ∧ (processSlackMessage envFail locA payloadA urlA).posts.map
          PostRecord.text
        = ["❌ Failed to create task: "
            ++ ("ClickUp API error: " ++ clickupErrMsg errA)] :=
  C5_downstream_failure envFail locA payloadA urlA wsA errA (by rfl) (by decide)
    (by rfl) (by decide)

/-- Sample threaded Slack message (it has a thread root). -/
def msgThr : SlackMessage :=
  { ts := "111.222", user := "U1", text := "hello", thread_ts := some "111.000",
    permalink := none }

/-- Sample payload carrying the threaded message. -/
def payloadThr : Payload :=
  { message := msgThr, channelId := "C1", teamId := "T1" }

/-- The thread root message as returned by the replies fetch. -/
def tmRoot : ThreadMsg :=
  { ts := "111.000", user := "U1", user_name := none, text := "root" }

/-- A reply message as returned by the replies fetch. -/
def tmReply : ThreadMsg :=
  { ts := "111.500", user := "U2", user_name := some "bob", text := "a reply" }

/-- Environment whose thread fetch returns exactly one message (the root,
with no replies); everything else succeeds. -/
def envOne : Env :=
  { envOk with threadResp := Except.ok { ok := true, payload := some [tmRoot] } }

/-- C6 counterexample: the fetch returned exactly one message — not more
than one — yet a ThreadContextEntry row is persisted, because server.js
line 437 guards the bulk insert with `threadMessages.length > 0`, not `> 1`. -/
theorem C6_counterexample :
    (SlackService.getThreadMessages envOne.threadResp).length = 1
      ∧ (processSlackMessage envOne locA payloadThr urlA).threadRows.length = 1
      ∧ (processSlackMessage envOne locA payloadThr urlA).mapping.map
          MappingRow.sync_status = some SyncStatus.completed :=
  ⟨by rfl, by rfl, by rfl⟩

/-- C6 (amended): ThreadContextEntry rows are bulk-created only on the
success path (after the downstream task-creation call resolved) and only
when the thread fetch returned at least one message; a message with no
thread root yields no rows; and the persisted rows preserve the fetched
order (zero-based order index, author, text). -/
theorem C6_thread_rows (env : Env) (loc : String → String) (payload : Payload)
    (responseUrl : Option String) :
    ((processSlackMessage env loc payload responseUrl).threadRows ≠ [] →
        exceptIsOk env.clickupResp = true
          ∧ threadFetched env payload.message ≠ [])
      ∧ (jsTruthyOpt payload.message.thread_ts = false →
          (processSlackMessage env loc payload responseUrl).threadRows = [])
      ∧ ((processSlackMessage env loc payload responseUrl).threadRows ≠ [] →
          (processSlackMessage env loc payload responseUrl).threadRows.map
              (fun tr => (tr.message_order, tr.thread_user_id,
                tr.thread_message_text))
            = (threadFetched env payload.message).enum.map
                fun pr => (pr.1, pr.2.user, pr.2.text)) := by
  rcases hw : env.workspace with _ | ws
  · simp [processSlackMessage, handleFailure_threadRows, hw]
  · rcases hc : DatabaseService.createMapping env.table (mappingDraft ws payload)
      with e | rt
    · simp [processSlackMessage, handleFailure_threadRows, hw, hc]
    · rcases hk : ClickUpService.createTask env.clickupResp with e | t
      · simp [processSlackMessage, handleFailure_threadRows, hw, hc, hk]
      · have hok : exceptIsOk env.clickupResp = true := by
          rw [← createTask_ok_iff, hk]; rfl
        by_cases hlen : 0 < (threadFetched env payload.message).length
        · have hne : threadFetched env payload.message ≠ [] :=
            List.length_pos.mp hlen
          rcases hs : env.successPost with e | u
          · simp only [processSlackMessage, hw, hc, hk, hs,
              handleFailure_threadRows, if_pos hlen]
            refine ⟨fun _ => ⟨hok, hne⟩, ?_, ?_⟩
            · intro hfalse
              exact absurd hlen (by simp [threadFetched, hfalse])
            · intro _
              simp [DatabaseService.saveThreadContext, List.map_map,
                Function.comp]
          · simp only [processSlackMessage, hw, hc, hk, hs, if_pos hlen]
            refine ⟨fun _ => ⟨hok, hne⟩, ?_, ?_⟩
            · intro hfalse
              exact absurd hlen (by simp [threadFetched, hfalse])
            · intro _
              simp [DatabaseService.saveThreadContext, List.map_map,
                Function.comp]
        · rcases hs : env.successPost with e | u
          · simp [processSlackMessage, hw, hc, hk, hs,
              handleFailure_threadRows, if_neg hlen]
          · simp [processSlackMessage, hw, hc, hk, hs, if_neg hlen]

/-- Environment whose thread fetch returns the root and one reply. -/
def envThr : Env :=
  { envOk with
    threadResp := Except.ok { ok := true, payload := some [tmRoot, tmReply] } }

/-- C6 witness: the two fetched thread messages are persisted in order with
their zero-based indices, authors and texts. -/
theorem C6_witness :
    (processSlackMessage envThr locA payloadThr urlA).threadRows.map
        (fun tr => (tr.message_order, tr.thread_user_id,
          tr.thread_message_text))
      = (threadFetched envThr payloadThr.message).enum.map
          (fun pr => (pr.1, pr.2.user, pr.2.text)) :=
  (C6_thread_rows envThr locA payloadThr urlA).2.2 (by decide)

/-- C8: each enrichment fetch is independently fault-tolerant — on any
upstream error (rejected call or `ok: false` response) the user and channel
fetches return null and the thread fetch returns the empty sequence, none of
them throws (they are total functions), and a run whose three enrichment
fetches all fail still builds and submits the downstream task payload, whose
description is the formatter applied to the null/empty fallbacks — in which
the author and channel labels are the literal "Unknown". -/
theorem C8_enrichment_fault_tolerance :
    (∀ e : String, SlackService.getUserInfo (Except.error e) = none)
      ∧ (∀ r : SlackApiResp SlackUser, r.ok = false →
          SlackService.getUserInfo (Except.ok r) = none)
      ∧ (∀ e : String, SlackService.getChannelInfo (Except.error e) = none)
      ∧ (∀ r : SlackApiResp SlackChannel, r.ok = false →
          SlackService.getChannelInfo (Except.ok r) = none)
      ∧ (∀ e : String, SlackService.getThreadMessages (Except.error e) = [])
      ∧ (∀ r : SlackApiResp (Option (List ThreadMsg)), r.ok = false →
          SlackService.getThreadMessages (Except.ok r) = [])
      ∧ authorLabel none = "Unknown"
      ∧ channelLabel none = "Unknown"
      ∧ (∀ (env : Env) (loc : String → String) (payload : Payload)
          (responseUrl : Option String) (ws : WorkspaceRow)
          (eu ec et : String),
          env.workspace = some ws →
          pairFree env.table payload.message.ts payload.teamId = true →
          env.userResp = Except.error eu →
          env.channelResp = Except.error ec →
          env.threadResp = Except.error et →
          (processSlackMessage env loc payload responseUrl).taskRequest.map
              TaskData.description
            = some (ClickUpService.formatSlackContextForClickUp loc
                payload.message none none [])) := by
  refine ⟨fun e => rfl, fun r hr => by simp [SlackService.getUserInfo, hr],
    fun e => rfl, fun r hr => by simp [SlackService.getChannelInfo, hr],
    fun e => rfl,
    fun r hr => by simp [SlackService.getThreadMessages, hr],
    by decide, by decide, ?_⟩
  intro env loc payload responseUrl ws eu ec et hw hfree hue hce hte
  have hno : (env.table.any fun r =>
      r.slack_message_id == (mappingDraft ws payload).slack_message_id
        && r.slack_workspace_id == (mappingDraft ws payload).slack_workspace_id)
      = false := by
    simpa [pairFree, mappingDraft] using hfree
  rcases hk : ClickUpService.createTask env.clickupResp with e | t
  · simp [processSlackMessage, handleFailure_taskRequest,
      DatabaseService.createMapping, hno, hw, hk, threadFetched, hue, hce, hte,
      SlackService.getUserInfo, SlackService.getChannelInfo,
      SlackService.getThreadMessages, buildTaskData]
  · rcases hs : env.successPost with e | u
    · simp [processSlackMessage, handleFailure_taskRequest,
        DatabaseService.createMapping, hno, hw, hk, hs, threadFetched, hue,
        hce, hte, SlackService.getUserInfo, SlackService.getChannelInfo,
        SlackService.getThreadMessages, buildTaskData]
    · simp [processSlackMessage, handleFailure_taskRequest,
        DatabaseService.createMapping, hno, hw, hk, hs, threadFetched, hue,
        hce, hte, SlackService.getUserInfo, SlackService.getChannelInfo,
        SlackService.getThreadMessages, buildTaskData]

/-- C8 witness: in the sample environment all three enrichment fetches fail,
yet the run submits a task payload whose description is the formatter output
for null author, null channel and empty thread. -/
theorem C8_witness :
    (processSlackMessage envOk locA payloadA urlA).taskRequest.map
        TaskData.description
      = some (ClickUpService.formatSlackContextForClickUp locA payloadA.message
          none none []) :=
  C8_enrichment_fault_tolerance.2.2.2.2.2.2.2.2 envOk locA payloadA urlA wsA
    "ECONNRESET" "ECONNRESET" "ECONNRESET" (by rfl) (by decide) (by rfl)
    (by rfl) (by rfl)

/-- C9: the task-description formatter is a pure function of its inputs (as
embedded it is a Lean function, so identical inputs give byte-identical
output by construction); its output decomposes as main part, thread section
and fixed footer; the thread-context section is present (non-empty) iff the
thread message sequence contains more than one message; and when present it
is the header reporting `length - 1` replies (root excluded) followed by the
reply blocks, one per reply beyond the root, in order, each with its author
and text. -/
theorem C9_formatter (loc : String → String) (message : SlackMessage)
    (user : Option SlackUser) (channel : Option SlackChannel)
    (tms : List ThreadMsg) :
    ClickUpService.formatSlackContextForClickUp loc message user channel tms
        = mainPart loc message user channel ++ threadSection tms ++ footerText
      ∧ (threadSection tms = "" ↔ tms.length ≤ 1)
      ∧ threadSection tms
        = (if tms.length > 1 then
            threadHeader tms.length
              ++ strJoin ((tms.drop 1).enum.map fun pr => replyBlock pr.1 pr.2)
          else "") := by
  refine ⟨formatSlackContext_decomp loc message user channel tms, ⟨?_, ?_⟩, rfl⟩
  · intro hempty
    by_contra hgt
    have hgt' : tms.length > 1 := by omega
    unfold threadSection at hempty
    rw [if_pos hgt'] at hempty
    have hL := congrArg String.length hempty
    rw [String.length_append] at hL
    have hpos : 0 < (threadHeader tms.length).length := by
      unfold threadHeader
      rw [String.length_append, String.length_append]
      have h21 : 0 < ("**🧵 Thread Context (" : String).length := by decide
      omega
    rw [show ("" : String).length = 0 from rfl] at hL
    omega
  · intro hle
    unfold threadSection
    rw [if_neg (Nat.not_lt.mpr hle)]

/-! ### Claims about the request authenticator -/

/-- A concrete stand-in for the keyed hash, used only to instantiate the
abstract `hmacHex` parameter at concrete inputs (it keeps distinct messages
distinguishable, which is what the claims about the hashed byte string
exercise). -/
def hmacConcat : String → String → String := fun secret msg => secret ++ "/" ++ msg

/-- C1 counterexample: a request whose raw transport body is the empty
string is accepted with a signature computed over the re-serialized parsed
body (`JSON.stringify(req.body)`), which is not the keyed hash over
`"v0:" + timestamp + ":" + rawBody` — because line 41 falls back with
`req.rawBody || JSON.stringify(req.body)` whenever `req.rawBody` is falsy. -/
theorem C1_counterexample :
    verifySlackRequest hmacConcat "k" 100000
        (some ("v0=" ++ hmacConcat "k" ("v0:100:" ++ "\x7b\x7d")))
        (some "100") (some "") "\x7b\x7d" = VerifyResult.next
      ∧ ("v0=" ++ hmacConcat "k" ("v0:100:" ++ "\x7b\x7d"))
        ≠ ("v0=" ++ hmacConcat "k" ("v0:" ++ "100" ++ ":" ++ "")) := by
  constructor
  · unfold verifySlackRequest
    rw [show jsToNumber ((some "100").getD "") = some 100 from by decide]
    rw [show tsStale 100000 (some 100) = false from
      (tsStale_some_false _ _).mpr (by norm_num)]
    decide
  · decide

/-- C1 (amended): a request with truthy headers and a fresh timestamp is
accepted exactly when the claimed signature equals `"v0="` plus the keyed
hash over `"v0:" + timestamp + ":" + body`, where `body` is `req.rawBody`
when that is present and non-empty and otherwise the re-serialization
`JSON.stringify(req.body)`; the comparison is Node's length-strict
constant-time `timingSafeEqual`. -/
theorem C1_signature_basis (hmacHex : String → String → String)
    (secret : String) (nowMs : ℚ)
    (signature timestamp rawBody : Option String) (parsedBodyJson : String)
    (hs : jsTruthyOpt signature = true) (ht : jsTruthyOpt timestamp = true)
    (hfresh : tsStale nowMs (jsToNumber (timestamp.getD "")) = false) :
    verifySlackRequest hmacHex secret nowMs signature timestamp rawBody
        parsedBodyJson = VerifyResult.next
      ↔ signature = some ("v0=" ++ hmacHex secret
          ("v0:" ++ timestamp.getD "" ++ ":" ++ jsOrS rawBody parsedBodyJson)) := by
  rcases signature with _ | s
  · exact absurd hs (by simp [jsTruthyOpt])
  · unfold verifySlackRequest timingSafeEqual
    simp only [hs, ht, hfresh, Bool.not_true, Bool.or_self, Bool.false_eq_true,
      if_false, Option.getD_some, Option.some.injEq]
    by_cases hsize :
        ("v0=" ++ hmacHex secret ("v0:" ++ timestamp.getD "" ++ ":"
            ++ jsOrS rawBody parsedBodyJson)).utf8ByteSize ≠ s.utf8ByteSize
    · rw [if_pos hsize]
      constructor
      · intro h
        exact absurd h (by simp)
      · intro h
        rw [← h] at hsize
        exact absurd rfl hsize
    · rw [if_neg hsize]
      rcases heqb : (("v0=" ++ hmacHex secret ("v0:" ++ timestamp.getD "" ++ ":"
          ++ jsOrS rawBody parsedBodyJson)) == s) with _ | _
      · simp only [heqb]
        constructor
        · intro h
          exact absurd h (by simp)
        · intro h
          rw [h] at heqb
          simp at heqb
      · have hh : ("v0=" ++ hmacHex secret ("v0:" ++ timestamp.getD "" ++ ":"
            ++ jsOrS rawBody parsedBodyJson)) = s := by
          simpa using heqb
        simp only [heqb, hh]

/-- C1 witness: the amended acceptance condition at concrete inputs with a
present, non-empty raw body. -/
theorem C1_witness :
    verifySlackRequest hmacConcat "k" 100000
        (some ("v0=" ++ hmacConcat "k" ("v0:" ++ "100" ++ ":"
          ++ jsOrS (some "xyz") "\x7b\x7d")))
        (some "100") (some "xyz") "\x7b\x7d" = VerifyResult.next
      ↔ some ("v0=" ++ hmacConcat "k" ("v0:" ++ "100" ++ ":"
          ++ jsOrS (some "xyz") "\x7b\x7d"))
        = some ("v0=" ++ hmacConcat "k" ("v0:" ++ (some "100").getD "" ++ ":"
            ++ jsOrS (some "xyz") "\x7b\x7d")) :=
  C1_signature_basis hmacConcat "k" 100000 _ (some "100") (some "xyz")
    "\x7b\x7d" (by decide) (by decide)
    (by rw [show jsToNumber ((some "100").getD "") = some 100 from by decide]
        exact (tsStale_some_false _ _).mpr (by norm_num))

/-- C7: a request whose numeric claimed timestamp differs from the current
time by more than 300 seconds is rejected with the stale-timestamp client
error, whatever the claimed signature is, and never reaches the handler. -/
theorem C7_stale_rejected (hmacHex : String → String → String)
    (secret : String) (nowMs t : ℚ)
    (signature timestamp rawBody : Option String) (parsedBodyJson : String)
    (hs : jsTruthyOpt signature = true) (ht : jsTruthyOpt timestamp = true)
    (hnum : jsToNumber (timestamp.getD "") = some t)
    (hstale : |nowMs / 1000 - t| > 300) :
    verifySlackRequest hmacHex secret nowMs signature timestamp rawBody
        parsedBodyJson = VerifyResult.staleTimestamp
      ∧ verifySlackRequest hmacHex secret nowMs signature timestamp rawBody
          parsedBodyJson ≠ VerifyResult.next := by
  have hb : tsStale nowMs (jsToNumber (timestamp.getD "")) = true := by
    rw [hnum]
    exact (tsStale_some _ _).mpr hstale
  have h1 : verifySlackRequest hmacHex secret nowMs signature timestamp rawBody
      parsedBodyJson = VerifyResult.staleTimestamp := by
    unfold verifySlackRequest
    simp [hs, ht, hb]
  exact ⟨h1, by rw [h1]; simp⟩

/-- C7 witness: a timestamp 900 seconds behind the clock is rejected as
stale even though the claimed signature is exactly the one the verifier
would compute. -/
theorem C7_witness :
    verifySlackRequest hmacConcat "k" 1000000
        (some ("v0=" ++ hmacConcat "k" ("v0:" ++ "100" ++ ":" ++ "xyz")))
        (some "100") (some "xyz") "\x7b\x7d" = VerifyResult.staleTimestamp
      ∧ verifySlackRequest hmacConcat "k" 1000000
          (some ("v0=" ++ hmacConcat "k" ("v0:" ++ "100" ++ ":" ++ "xyz")))
          (some "100") (some "xyz") "\x7b\x7d" ≠ VerifyResult.next :=
  C7_stale_rejected hmacConcat "k" 1000000 100 _ (some "100") (some "xyz")
    "\x7b\x7d" (by decide) (by decide) (by decide) (by norm_num)

/-- C10: when the claimed signature header differs in byte length from the
computed `"v0="`-prefixed signature, the constant-time comparison throws,
and the catch branch of the verifier turns that into the 400 client error —
the request neither crashes the verifier (a total function) nor reaches the
guarded handler. -/
theorem C10_length_mismatch (hmacHex : String → String → String)
    (secret : String) (nowMs : ℚ)
    (signature timestamp rawBody : Option String) (parsedBodyJson : String)
    (hs : jsTruthyOpt signature = true) (ht : jsTruthyOpt timestamp = true)
    (hfresh : tsStale nowMs (jsToNumber (timestamp.getD "")) = false)
    (hlen : (signature.getD "").utf8ByteSize
      ≠ ("v0=" ++ hmacHex secret ("v0:" ++ timestamp.getD "" ++ ":"
          ++ jsOrS rawBody parsedBodyJson)).utf8ByteSize) :
    timingSafeEqual
        ("v0=" ++ hmacHex secret ("v0:" ++ timestamp.getD "" ++ ":"
          ++ jsOrS rawBody parsedBodyJson)) (signature.getD "")
        = Except.error ()
      ∧ verifySlackRequest hmacHex secret nowMs signature timestamp rawBody
          parsedBodyJson = VerifyResult.caughtError
      ∧ verifySlackRequest hmacHex secret nowMs signature timestamp rawBody
          parsedBodyJson ≠ VerifyResult.next := by
  have hts : timingSafeEqual
      ("v0=" ++ hmacHex secret ("v0:" ++ timestamp.getD "" ++ ":"
        ++ jsOrS rawBody parsedBodyJson)) (signature.getD "")
      = Except.error () := by
    unfold timingSafeEqual
    rw [if_pos (Ne.symm hlen)]
  have h2 : verifySlackRequest hmacHex secret nowMs signature timestamp rawBody
      parsedBodyJson = VerifyResult.caughtError := by
    unfold verifySlackRequest
    simp only [hs, ht, hfresh, Bool.not_true, Bool.or_self,
      Bool.false_eq_true, if_false, hts]
  exact ⟨hts, h2, by rw [h2]; simp⟩

/-- Keyed-hash stand-in producing a fixed 64-hex-character digest, the shape
of a real SHA-256 hex digest. -/
def hmacHex64 : String → String → String := fun _ _ =>
  "0123456789abcdef0123456789abcdef0123456789abcdef0123456789abcdef"

/-- C10 witness: an 8-byte claimed signature against the 67-byte computed
`v0=`-prefixed digest makes the comparison throw and the verifier answer
the catch-branch 400. -/
theorem C10_witness :
    timingSafeEqual
        ("v0=" ++ hmacHex64 "k" ("v0:" ++ (some "100").getD "" ++ ":"
          ++ jsOrS (some "xyz") "\x7b\x7d")) ((some "v0=short").getD "")
        = Except.error ()
      ∧ verifySlackRequest hmacHex64 "k" 100000 (some "v0=short") (some "100")
          (some "xyz") "\x7b\x7d" = VerifyResult.caughtError
      ∧ verifySlackRequest hmacHex64 "k" 100000 (some "v0=short") (some "100")
          (some "xyz") "\x7b\x7d" ≠ VerifyResult.next :=
  C10_length_mismatch hmacHex64 "k" 100000 (some "v0=short") (some "100")
    (some "xyz") "\x7b\x7d" (by decide) (by decide)
    (by rw [show jsToNumber ((some "100").getD "") = some 100 from by decide]
        exact (tsStale_some_false _ _).mpr (by norm_num))
    (by decide)

/-- C9 witness: for a concrete two-message thread the section is non-empty
(there is a reply beyond the root). -/
theorem C9_witness :
    threadSection [tmRoot, tmReply] = ""
      ↔ ([tmRoot, tmReply] : List ThreadMsg).length ≤ 1 :=
  (C9_formatter locA msgA none none [tmRoot, tmReply]).2.1
